import Mathlib

/-!
Verification of the Agent Relay Subsystem of `svelte-grab`.

This file shallowly embeds the relay broker (`src/relay/server.ts`), the
Claude Code provider (`src/relay/providers/claude-code.ts`) and the
browser-side relay client (`AgentClient` in
`src/lib/core/context-menu-actions.ts`), and proves properties of the
embedded definitions.

Modelling conventions:
- The broker's provider map (`providerMap : Map<string, AgentProvider>`)
  is represented by its key list in insertion order; dispatching to the
  provider registered under name `a` is represented by an `invoke…` effect
  carrying `a`.
- Handling one inbound message is a pure function from the session store
  and the message to the new store plus the list of effects (outbound
  sends and provider invocations) the handler performs, in program order.
- The client's verb methods are pure functions from the client state (and
  the current timestamp, for `Date.now()`) to the new state plus the list
  of actions (callback invocations, pending-entry assignment, socket
  sends) performed, in program order.
-/

set_option autoImplicit false

/-- The `AgentContext` value object: `{ content: string[]; prompt: string;
selectedCount: number }` (src/lib/types.ts, src/relay/protocol.ts). -/
structure AgentContext where
  content : List String
  prompt : String
  selectedCount : Nat
deriving DecidableEq, Repr

/-- One entry of the broker's session store (`SessionEntry` in
src/relay/server.ts): the agent id and last submitted context. -/
structure SessionEntry where
  agentId : String
  lastContext : AgentContext
deriving DecidableEq, Repr

/-- Client → server protocol messages, as handled by the broker's switch
in src/relay/server.ts and produced by `AgentClient`. -/
inductive ClientMessage where
  | health
  | agentRequest (agentId : String) (sessionId : String) (context : AgentContext)
  | agentAbort (sessionId : String)
  | agentUndo (sessionId : String)
  | agentRedo (sessionId : String)
  | agentResume (sessionId : String) (prompt : String)
  | agentRetry (sessionId : String)
deriving DecidableEq, Repr

/-- Server → client protocol messages (src/relay/protocol.ts). The health
reply's constant `status: 'ok'` field is omitted. -/
inductive ServerMessage where
  | handlers (agents : List String)
  | healthResponse (agents : List String)
  | agentStatus (sessionId : String) (message : String)
  | agentDone (sessionId : String) (result : String)
  | agentError (sessionId : String) (error : String)
deriving DecidableEq, Repr

/-- The broker's session store: `Map<string, SessionEntry>`, represented
as an association list in insertion order. -/
abbrev SessionStore := List (String × SessionEntry)

/-- `sessionStore.get(k)`: first entry whose key equals `k`. -/
def storeGet : SessionStore → String → Option SessionEntry
  | [], _ => none
  | (k2, v) :: rest, k => if k2 = k then some v else storeGet rest k

/-- `sessionStore.set(k, v)`: JavaScript `Map.set` semantics — replace the
value at an existing key (keeping its position), else append. -/
def storeSet : SessionStore → String → SessionEntry → SessionStore
  | [], k, v => [(k, v)]
  | (k2, v2) :: rest, k, v =>
      if k2 = k then (k2, v) :: rest else (k2, v2) :: storeSet rest k v

/-- Provider registration at broker startup: `for (const p of providers)
providerMap.set(p.name, p)`. Key list keeps first-occurrence order. -/
def registerProviders (ps : List String) : List String :=
  ps.foldl (fun acc p => if p ∈ acc then acc else acc ++ [p]) []

/-- One observable effect of the broker's message handler: an outbound
send on the originating socket, or an invocation of a registered
provider's method (the effect carries the provider's name, i.e. the key
under which it is registered in `providerMap`). -/
inductive BrokerEffect where
  | send (m : ServerMessage)
  | invokeHandleRequest (provider : String) (sessionId : String) (context : AgentContext)
  | invokeAbort (provider : String) (sessionId : String)
  | invokeUndo (provider : String) (sessionId : String)
  | invokeRedo (provider : String) (sessionId : String)
  | invokeResume (provider : String) (sessionId : String) (prompt : String)
deriving DecidableEq, Repr

/-- The broker's per-message dispatch (the `switch (msg.type)` in
`createRelayServer`, src/relay/server.ts lines 98–183), as a pure function
from the registered provider names, the session store and the parsed
message to the new store and the effects performed in program order.
`providerMap.get(a)` succeeds iff `a ∈ agents`;
`providerMap.values().next().value` is the provider registered under
`agents.head?`. -/
def brokerStep (agents : List String) (store : SessionStore) :
    ClientMessage → SessionStore × List BrokerEffect
  | .health =>
      (store, [.send (.healthResponse agents)])
  | .agentRequest agentId sessionId context =>
      if agentId ∈ agents then
        (storeSet store sessionId ⟨agentId, context⟩,
         [.invokeHandleRequest agentId sessionId context])
      else
        (store,
         [.send (.agentError sessionId
            ("Unknown agent: " ++ agentId ++ ". Available: "
              ++ String.intercalate ", " agents))])
  | .agentAbort sessionId =>
      (store, agents.map fun p => .invokeAbort p sessionId)
  | .agentUndo sessionId =>
      match storeGet store sessionId with
      | some session =>
          if session.agentId ∈ agents then
            (store, [.invokeUndo session.agentId sessionId])
          else (store, [])
      | none =>
          match agents.head? with
          | some p => (store, [.invokeUndo p sessionId])
          | none => (store, [])
  | .agentRedo sessionId =>
      match storeGet store sessionId with
      | some session =>
          if session.agentId ∈ agents then
            (store, [.invokeRedo session.agentId sessionId])
          else (store, [])
      | none =>
          match agents.head? with
          | some p => (store, [.invokeRedo p sessionId])
          | none => (store, [])
  | .agentResume sessionId prompt =>
      match storeGet store sessionId with
      | some session =>
          if session.agentId ∈ agents then
            (store, [.invokeResume session.agentId sessionId prompt])
          else (store, [])
      | none =>
          match agents.head? with
          | some p => (store, [.invokeResume p sessionId prompt])
          | none => (store, [])
  | .agentRetry sessionId =>
      match storeGet store sessionId with
      | none =>
          (store,
           [.send (.agentError sessionId
              "No previous request to retry for this session")])
      | some session =>
          if session.agentId ∈ agents then
            (store, [.invokeHandleRequest session.agentId sessionId session.lastContext])
          else (store, [])

/-- An inbound websocket frame: either its body parses to a protocol
message, or `JSON.parse` throws. -/
inductive InboundFrame where
  | ok (m : ClientMessage)
  | malformed
deriving DecidableEq, Repr

/-- The broker's full message handler (src/relay/server.ts lines 60–66):
a frame whose body fails to parse is dropped by the early `return` before
the switch. -/
def handleFrame (agents : List String) (store : SessionStore) :
    InboundFrame → SessionStore × List BrokerEffect
  | .malformed => (store, [])
  | .ok m => brokerStep agents store m

/-- Folding the broker's dispatch over a list of inbound messages,
keeping only the session store. -/
def brokerRunStore (agents : List String) (store : SessionStore) :
    List ClientMessage → SessionStore
  | [] => store
  | m :: ms => brokerRunStore agents (brokerStep agents store m).1 ms

/-- Does this message carry `type: 'agent-request'` with the given
session id? -/
def isAgentRequestFor (S : String) : ClientMessage → Bool
  | .agentRequest _ sessionId _ => sessionId = S
  | _ => false

/-! ### The Claude Code provider (src/relay/providers/claude-code.ts)

`ClaudeCodeProvider.handleRequest` is an async method with exactly two
suspension points: `await this.loadSDK()` (before the `AbortController`
is created and registered in `activeSessions`) and `await sdk.query(…)`.
`abort(sessionId)` runs synchronously between suspension points of the
in-flight invocation; it aborts the registered controller if present and
is a no-op otherwise. We model one `handleRequest(S, ctx, callbacks)`
invocation by the callback events it emits, as a function of the SDK's
behaviour and of where (if anywhere) an `abort(S)` call is scheduled. -/

/-- A callback event emitted by one provider `handleRequest` invocation. -/
inductive CbEvent where
  | status (message : String)
  | done (result : String)
  | error (e : String)
deriving DecidableEq, Repr

/-- Behaviour of the external SDK during one invocation: the dynamic
module load fails (`loadSDK` throws), or `sdk.query` resolves, rejects with an
`AbortError`, or rejects with any other error. -/
inductive SdkBehavior where
  | loadFails (msg : String)
  | queryResolves (result : String)
  | queryRejectsAbortError
  | queryRejects (msg : String)
deriving DecidableEq, Repr

/-- Where an `abort(S)` call interleaves with the invocation:
while `handleRequest` is suspended in `await this.loadSDK()` (so before
`activeSessions.set` registers the controller), while it is suspended in
`await sdk.query(…)` (controller registered), or not before the
invocation resolves. -/
inductive AbortPoint where
  | beforeRegistration
  | duringQuery
  | noAbort
deriving DecidableEq, Repr

/-- `abort(S)` is invoked before the `handleRequest` invocation
resolves. -/
def abortBeforeResolve : AbortPoint → Bool
  | .beforeRegistration => true
  | .duringQuery => true
  | .noAbort => false

/-- The two status updates emitted between `activeSessions.set` and
`await sdk.query` (claude-code.ts lines 119 and 134). -/
def handleRequestStatuses : List CbEvent :=
  [.status "Connecting to Claude Code...", .status "Processing..."]

/-- The callback events emitted by one
`ClaudeCodeProvider.handleRequest(S, ctx, callbacks)` invocation
(claude-code.ts lines 109–158), per SDK behaviour and abort schedule:
- `loadFails msg`: the `try` block throws before the controller exists;
  the `catch` deletes nothing and, since the error is not an
  `AbortError`, calls `onError msg`. An `abort(S)` at any point finds no
  registered controller and is a no-op.
- `queryResolves r`: with no abort, or with an abort that ran before the
  controller was registered (a no-op, leaving `signal.aborted` false),
  the guard `if (controller.signal.aborted) return` passes and
  `onDone r` fires; with an abort during the query await the guard
  returns without a terminal callback.
- `queryRejectsAbortError`: the `catch` sees `err.name === 'AbortError'`
  and returns without a terminal callback.
- `queryRejects msg`: the `catch` calls `onError msg` — it does not
  consult `controller.signal.aborted`, so this happens whether or not an
  abort was scheduled. -/
def handleRequestEvents (behavior : SdkBehavior) (abortAt : AbortPoint) : List CbEvent :=
  match behavior with
  | .loadFails msg => [.error msg]
  | .queryResolves r =>
      match abortAt with
      | .duringQuery => handleRequestStatuses
      | .beforeRegistration => handleRequestStatuses ++ [.done r]
      | .noAbort => handleRequestStatuses ++ [.done r]
  | .queryRejectsAbortError => handleRequestStatuses
  | .queryRejects msg => handleRequestStatuses ++ [.error msg]

/-- Is this event a terminal callback (`onDone` or `onError`)? -/
def isTerminalEvent : CbEvent → Bool
  | .done _ => true
  | .error _ => true
  | .status _ => false

/-- Does the event list contain a terminal callback? -/
def hasTerminalEvent (evs : List CbEvent) : Bool :=
  evs.any isTerminalEvent

/-- The SDK honoured the invocation: the module loaded and the query
either resolved or rejected with an `AbortError` (it did not reject for
an unrelated reason). -/
def sdkHonorsAbort : SdkBehavior → Bool
  | .queryResolves _ => true
  | .queryRejectsAbortError => true
  | .loadFails _ => false
  | .queryRejects _ => false

/-! ### The relay client (`AgentClient` in
src/lib/core/context-menu-actions.ts) -/

/-- `AgentHistoryEntry`: prompt, content, timestamp, optional result,
optional error (as constructed and finalized by `AgentClient`). -/
structure AgentHistoryEntry where
  prompt : String
  content : List String
  timestamp : Nat
  result : Option String := none
  error : Option String := none
deriving DecidableEq, Repr

/-- The relay client's state: `ws` is `none` when `this.ws === null`,
otherwise `some readyState`; `WebSocket.OPEN = 1`. -/
structure AgentClientState where
  ws : Option Nat
  sessionId : String
  requestHistory : List AgentHistoryEntry
  pendingEntry : Option AgentHistoryEntry
deriving DecidableEq, Repr

/-- The guard `this.ws && this.ws.readyState === WebSocket.OPEN`. -/
def socketIsOpen (st : AgentClientState) : Bool :=
  match st.ws with
  | some r => r == 1
  | none => false

/-- One observable action of a client verb or of the inbound-message
handler, in program order. -/
inductive ClientAction where
  | callOnError (e : String)
  | callOnStatus (message : String)
  | callOnDone (result : String)
  | callOnHandlers (agents : List String)
  | setPending (entry : AgentHistoryEntry)
  | send (m : ClientMessage)
deriving DecidableEq, Repr

/-- JavaScript `x?.f || dflt` on an optional string: `undefined` and the
empty string are falsy. -/
def jsOrDefault : Option String → String → String
  | none, d => d
  | some s, d => if s = "" then d else s

/-- `AgentClient.sendRequest(agentId, context)`. -/
def clientSendRequest (st : AgentClientState) (agentId : String)
    (context : AgentContext) (now : Nat) : AgentClientState × List ClientAction :=
  if !socketIsOpen st then
    (st, [.callOnError "Not connected to relay server"])
  else
    let pe : AgentHistoryEntry :=
      { prompt := context.prompt, content := context.content, timestamp := now }
    ({ st with pendingEntry := some pe },
     [.setPending pe, .send (.agentRequest agentId st.sessionId context)])

/-- `AgentClient.abort()`: when the socket is not open it returns with no
error callback; otherwise it sends without touching the pending entry. -/
def clientAbort (st : AgentClientState) : AgentClientState × List ClientAction :=
  if !socketIsOpen st then (st, [])
  else (st, [.send (.agentAbort st.sessionId)])

/-- `AgentClient.undo()`. -/
def clientUndo (st : AgentClientState) (now : Nat) :
    AgentClientState × List ClientAction :=
  if !socketIsOpen st then
    (st, [.callOnError "Not connected to relay server"])
  else
    let pe : AgentHistoryEntry :=
      { prompt := "Undo the last change", content := [], timestamp := now }
    ({ st with pendingEntry := some pe },
     [.setPending pe, .send (.agentUndo st.sessionId)])

/-- `AgentClient.redo()`. -/
def clientRedo (st : AgentClientState) (now : Nat) :
    AgentClientState × List ClientAction :=
  if !socketIsOpen st then
    (st, [.callOnError "Not connected to relay server"])
  else
    let pe : AgentHistoryEntry :=
      { prompt := "Redo the last change", content := [], timestamp := now }
    ({ st with pendingEntry := some pe },
     [.setPending pe, .send (.agentRedo st.sessionId)])

/-- `AgentClient.resume(prompt)`. -/
def clientResume (st : AgentClientState) (prompt : String) (now : Nat) :
    AgentClientState × List ClientAction :=
  if !socketIsOpen st then
    (st, [.callOnError "Not connected to relay server"])
  else
    let pe : AgentHistoryEntry :=
      { prompt := prompt, content := [], timestamp := now }
    ({ st with pendingEntry := some pe },
     [.setPending pe, .send (.agentResume st.sessionId prompt)])

/-- `AgentClient.retry()`: after the socket guard it reads
`this._requestHistory[this._requestHistory.length - 1]` (possibly
`undefined`), builds the pending entry with
`prompt: lastEntry?.prompt || 'Retry'` and
`content: lastEntry?.content || []` (an array is always truthy), and
sends `agent-retry` unconditionally. -/
def clientRetry (st : AgentClientState) (now : Nat) :
    AgentClientState × List ClientAction :=
  if !socketIsOpen st then
    (st, [.callOnError "Not connected to relay server"])
  else
    let lastEntry := st.requestHistory.getLast?
    let pe : AgentHistoryEntry :=
      { prompt := jsOrDefault (lastEntry.map fun e => e.prompt) "Retry",
        content := (lastEntry.map fun e => e.content).getD [],
        timestamp := now }
    ({ st with pendingEntry := some pe },
     [.setPending pe, .send (.agentRetry st.sessionId)])

/-- The client's `ws.onmessage` dispatch (context-menu-actions.ts lines
391–421): `agent-status` forwards the message; `agent-done` /
`agent-error` finalize the pending entry (if any) into history and call
the terminal callback; `handlers` forwards the agent list; the health
reply matches no case of the switch. No case inspects `msg.sessionId`. -/
def handleServerMessage (st : AgentClientState) :
    ServerMessage → AgentClientState × List ClientAction
  | .agentStatus _ message => (st, [.callOnStatus message])
  | .agentDone _ result =>
      match st.pendingEntry with
      | some pe =>
          ({ st with
              requestHistory := st.requestHistory ++ [{ pe with result := some result }],
              pendingEntry := none },
           [.callOnDone result])
      | none => (st, [.callOnDone result])
  | .agentError _ e =>
      match st.pendingEntry with
      | some pe =>
          ({ st with
              requestHistory := st.requestHistory ++ [{ pe with error := some e }],
              pendingEntry := none },
           [.callOnError e])
      | none => (st, [.callOnError e])
  | .handlers agents => (st, [.callOnHandlers agents])
  | .healthResponse _ => (st, [])

/-- Is this action a socket send? -/
def isSendAction : ClientAction → Bool
  | .send _ => true
  | _ => false

/-- Is this action an `onError` callback invocation? -/
def isErrorCallbackAction : ClientAction → Bool
  | .callOnError _ => true
  | _ => false

/-- Does the action list contain a socket send? -/
def hasSendAction (acts : List ClientAction) : Bool :=
  acts.any isSendAction

/-- Does the action list contain an `onError` callback invocation? -/
def hasErrorCallback (acts : List ClientAction) : Bool :=
  acts.any isErrorCallbackAction

/-! ### Session store lemmas -/

theorem storeGet_storeSet_same (store : SessionStore) (k : String) (v : SessionEntry) :
    storeGet (storeSet store k v) k = some v := by
  induction store with
  | nil => simp [storeSet, storeGet]
  | cons hd tl ih =>
      obtain ⟨k2, v2⟩ := hd
      by_cases h : k2 = k
      · simp [storeSet, storeGet, h]
      · simp [storeSet, storeGet, h, ih]

theorem storeGet_storeSet_ne (store : SessionStore) (k k2 : String) (v : SessionEntry)
    (h : k2 ≠ k) : storeGet (storeSet store k2 v) k = storeGet store k := by
  induction store with
  | nil => simp [storeSet, storeGet, h]
  | cons hd tl ih =>
      obtain ⟨k3, v3⟩ := hd
      by_cases h3 : k3 = k2
      · subst h3
        simp [storeSet, storeGet, h]
      · simp [storeSet, storeGet, h3, ih]

/-- Every broker case other than an accepted `agent-request` leaves the
session store untouched. -/
theorem brokerStep_store_eq_of_not_request (agents : List String)
    (store : SessionStore) (m : ClientMessage)
    (h : ∀ a sid ctx, m ≠ .agentRequest a sid ctx) :
    (brokerStep agents store m).1 = store := by
  cases m with
  | agentRequest a sid ctx => exact absurd rfl (h a sid ctx)
  | health => rfl
  | agentAbort sid => rfl
  | agentUndo sid =>
      simp only [brokerStep]
      cases storeGet store sid with
      | some session =>
          by_cases hs : session.agentId ∈ agents <;> simp [hs]
      | none =>
          cases agents.head? <;> rfl
  | agentRedo sid =>
      simp only [brokerStep]
      cases storeGet store sid with
      | some session =>
          by_cases hs : session.agentId ∈ agents <;> simp [hs]
      | none =>
          cases agents.head? <;> rfl
  | agentResume sid prompt =>
      simp only [brokerStep]
      cases storeGet store sid with
      | some session =>
          by_cases hs : session.agentId ∈ agents <;> simp [hs]
      | none =>
          cases agents.head? <;> rfl
  | agentRetry sid =>
      simp only [brokerStep]
      cases storeGet store sid with
      | some session =>
          by_cases hs : session.agentId ∈ agents <;> simp [hs]
      | none => rfl

/-- Handling a message that is not an `agent-request` for session `S`
preserves the stored entry for `S`. -/
theorem storeGet_brokerStep_of_not_request_for (agents : List String)
    (store : SessionStore) (S : String) (m : ClientMessage)
    (h : isAgentRequestFor S m = false) :
    storeGet (brokerStep agents store m).1 S = storeGet store S := by
  cases m with
  | agentRequest a sid ctx =>
      have hne : sid ≠ S := by
        simpa [isAgentRequestFor] using h
      by_cases ha : a ∈ agents
      · simp [brokerStep, ha, storeGet_storeSet_ne store S sid _ hne]
      · simp [brokerStep, ha]
  | _ =>
      rw [brokerStep_store_eq_of_not_request]
      intro a sid ctx hctr
      cases hctr

/-- Running the broker over a list of messages containing no
`agent-request` for `S` preserves the stored entry for `S`. -/
theorem storeGet_brokerRunStore_of_no_request_for (agents : List String) (S : String) :
    ∀ (ms : List ClientMessage) (store : SessionStore),
      (∀ m ∈ ms, isAgentRequestFor S m = false) →
      storeGet (brokerRunStore agents store ms) S = storeGet store S := by
  intro ms
  induction ms with
  | nil => intro store _; rfl
  | cons m rest ih =>
      intro store h
      have hm : isAgentRequestFor S m = false := h m (List.mem_cons_self m rest)
      have hrest : ∀ x ∈ rest, isAgentRequestFor S x = false := by
        intro x hx
        exact h x (List.mem_cons_of_mem m hx)
      calc storeGet (brokerRunStore agents (brokerStep agents store m).1 rest) S
          = storeGet (brokerStep agents store m).1 S := ih _ hrest
        _ = storeGet store S := storeGet_brokerStep_of_not_request_for agents store S m hm

/-! ### Claim theorems -/

/-- C1. Broker session routing for retry: after the broker accepts an
`agent-request` with session `S`, agent `A` (a registered provider) and
context `ctx`, and then processes any messages none of which is an
`agent-request` for `S`, handling an `agent-retry` for `S` performs
exactly one effect: invoking provider `A`'s `handleRequest` with session
`S` and the very context `ctx`. -/
theorem c1_retry_session_routing (agents : List String) (store0 : SessionStore)
    (A S : String) (ctx : AgentContext) (mid : List ClientMessage)
    (hA : A ∈ agents)
    (hmid : ∀ m ∈ mid, isAgentRequestFor S m = false) :
    (brokerStep agents
        (brokerRunStore agents (brokerStep agents store0 (.agentRequest A S ctx)).1 mid)
        (.agentRetry S)).2
      = [BrokerEffect.invokeHandleRequest A S ctx] := by
  have h1 : (brokerStep agents store0 (.agentRequest A S ctx)).1
      = storeSet store0 S ⟨A, ctx⟩ := by
    simp [brokerStep, hA]
  have h2 : storeGet
      (brokerRunStore agents (brokerStep agents store0 (.agentRequest A S ctx)).1 mid) S
      = some ⟨A, ctx⟩ := by
    rw [storeGet_brokerRunStore_of_no_request_for agents S mid _ hmid, h1,
      storeGet_storeSet_same]
  rw [h1] at h2
  rw [h1]
  simp [brokerStep, h2, hA]

/-- Witness for C1 at a concrete run: one registered provider, an
accepted request for session `s1`, two unrelated intervening messages,
then the retry. -/
theorem c1_retry_session_routing_witness :
    ("claude-code" ∈ ["claude-code"]
      ∧ (∀ m ∈ [ClientMessage.health,
            ClientMessage.agentRequest "claude-code" "other" ⟨[], "hi", 0⟩],
          isAgentRequestFor "s1" m = false))
    ∧ (brokerStep ["claude-code"]
        (brokerRunStore ["claude-code"]
          (brokerStep ["claude-code"] []
            (.agentRequest "claude-code" "s1" ⟨["<button>"], "make it bigger", 1⟩)).1
          [ClientMessage.health,
           ClientMessage.agentRequest "claude-code" "other" ⟨[], "hi", 0⟩])
        (.agentRetry "s1")).2
      = [BrokerEffect.invokeHandleRequest "claude-code" "s1"
          ⟨["<button>"], "make it bigger", 1⟩] :=
  ⟨⟨by decide, by decide⟩,
   c1_retry_session_routing ["claude-code"] [] "claude-code" "s1"
     ⟨["<button>"], "make it bigger", 1⟩
     [ClientMessage.health, ClientMessage.agentRequest "claude-code" "other" ⟨[], "hi", 0⟩]
     (by decide) (by decide)⟩

/-- C4. Retry for an unknown session is a hard error: when the session
store has no entry for `S`, handling `agent-retry S` sends exactly one
`agent-error` for `S` (carrying the broker's fixed message) as its only
effect — in particular no provider `handleRequest` is invoked — and
leaves the store unchanged. -/
theorem c4_retry_unknown_session (agents : List String) (store : SessionStore)
    (S : String) (h : storeGet store S = none) :
    brokerStep agents store (.agentRetry S)
      = (store,
         [BrokerEffect.send (ServerMessage.agentError S
            "No previous request to retry for this session")]) := by
  simp [brokerStep, h]

/-- Witness for C4: empty session store. -/
theorem c4_retry_unknown_session_witness :
    storeGet [] "s9" = none
    ∧ brokerStep ["claude-code"] [] (.agentRetry "s9")
        = ([],
           [BrokerEffect.send (ServerMessage.agentError "s9"
              "No previous request to retry for this session")]) :=
  ⟨by decide, c4_retry_unknown_session ["claude-code"] [] "s9" (by decide)⟩

/-- C5. Unknown agentId is a terminal routing error: when `A` is not a
registered provider name, handling `agent-request A S ctx` sends, as its
only effect, one `agent-error` for `S` whose text is
`Unknown agent: A. Available: <comma-joined registered names>` — so the
text contains the requested agent id and the registered list — invokes no
provider, and leaves the session store unchanged. -/
theorem c5_unknown_agent_id (agents : List String) (store : SessionStore)
    (A S : String) (ctx : AgentContext) (h : A ∉ agents) :
    brokerStep agents store (.agentRequest A S ctx)
      = (store,
         [BrokerEffect.send (ServerMessage.agentError S
            ("Unknown agent: " ++ A ++ ". Available: "
              ++ String.intercalate ", " agents))]) := by
  simp [brokerStep, h]

/-- Witness for C5: the scenario of §8.8 of the spec — agent id
`unknown-agent` against registered list `["claude-code"]`. -/
theorem c5_unknown_agent_id_witness :
    "unknown-agent" ∉ ["claude-code"]
    ∧ brokerStep ["claude-code"] [] (.agentRequest "unknown-agent" "s2" ⟨[], "x", 0⟩)
        = ([],
           [BrokerEffect.send (ServerMessage.agentError "s2"
              "Unknown agent: unknown-agent. Available: claude-code")]) :=
  ⟨by decide,
   by
     have h := c5_unknown_agent_id ["claude-code"] [] "unknown-agent" "s2"
       ⟨[], "x", 0⟩ (by decide)
     simpa using h⟩

/-- C6. Session-store frame condition: an accepted `agent-request` for
session `S` overwrites the stored entry for `S` with the new agent id
and context while leaving every other session's entry unchanged, and
handling `agent-retry` leaves the whole session store unchanged. -/
theorem c6_session_store_frame (agents : List String) (store : SessionStore)
    (A S S2 : String) (ctx : AgentContext)
    (hA : A ∈ agents) (hne : S2 ≠ S) :
    storeGet (brokerStep agents store (.agentRequest A S ctx)).1 S = some ⟨A, ctx⟩
    ∧ storeGet (brokerStep agents store (.agentRequest A S ctx)).1 S2
        = storeGet store S2
    ∧ (brokerStep agents store (.agentRetry S)).1 = store := by
  refine ⟨?_, ?_, ?_⟩
  · simp [brokerStep, hA, storeGet_storeSet_same]
  · have : S ≠ S2 := fun hcontra => hne hcontra.symm
    simp [brokerStep, hA, storeGet_storeSet_ne store S2 S _ this]
  · exact brokerStep_store_eq_of_not_request agents store _ (by intro a sid c hc; cases hc)

/-- Witness for C6: a store already holding sessions `s1` and `s2`; a new
request for `s1` overwrites `s1` and leaves `s2` alone. -/
theorem c6_session_store_frame_witness :
    ("claude-code" ∈ ["claude-code", "other"] ∧ "s2" ≠ "s1")
    ∧ (storeGet (brokerStep ["claude-code", "other"]
          [("s1", ⟨"other", ⟨[], "old", 0⟩⟩), ("s2", ⟨"other", ⟨[], "keep", 2⟩⟩)]
          (.agentRequest "claude-code" "s1" ⟨["<p>"], "new", 1⟩)).1 "s1"
        = some ⟨"claude-code", ⟨["<p>"], "new", 1⟩⟩
      ∧ storeGet (brokerStep ["claude-code", "other"]
          [("s1", ⟨"other", ⟨[], "old", 0⟩⟩), ("s2", ⟨"other", ⟨[], "keep", 2⟩⟩)]
          (.agentRequest "claude-code" "s1" ⟨["<p>"], "new", 1⟩)).1 "s2"
        = storeGet
            [("s1", ⟨"other", ⟨[], "old", 0⟩⟩), ("s2", ⟨"other", ⟨[], "keep", 2⟩⟩)] "s2"
      ∧ (brokerStep ["claude-code", "other"]
          [("s1", ⟨"other", ⟨[], "old", 0⟩⟩), ("s2", ⟨"other", ⟨[], "keep", 2⟩⟩)]
          (.agentRetry "s1")).1
        = [("s1", ⟨"other", ⟨[], "old", 0⟩⟩), ("s2", ⟨"other", ⟨[], "keep", 2⟩⟩)]) :=
  ⟨⟨by decide, by decide⟩,
   c6_session_store_frame ["claude-code", "other"]
     [("s1", ⟨"other", ⟨[], "old", 0⟩⟩), ("s2", ⟨"other", ⟨[], "keep", 2⟩⟩)]
     "claude-code" "s1" "s2" ⟨["<p>"], "new", 1⟩ (by decide) (by decide)⟩

/-- C7. Unknown-session fallback routing: for each of `agent-undo`,
`agent-redo` and `agent-resume`, when the session store has no entry for
the session the broker dispatches the operation to the first registered
provider (here `p`, the head of a non-empty registration list) instead of
reporting an error; and when the store has an entry whose agent id is a
registered provider, it dispatches to that provider. -/
theorem c7_unknown_session_fallback (p : String) (rest agents2 : List String)
    (store store2 : SessionStore) (S S2 prompt prompt2 : String)
    (entry : SessionEntry)
    (hnone : storeGet store S = none)
    (hfound : storeGet store2 S2 = some entry)
    (hreg : entry.agentId ∈ agents2) :
    brokerStep (p :: rest) store (.agentUndo S) = (store, [.invokeUndo p S])
    ∧ brokerStep (p :: rest) store (.agentRedo S) = (store, [.invokeRedo p S])
    ∧ brokerStep (p :: rest) store (.agentResume S prompt)
        = (store, [.invokeResume p S prompt])
    ∧ brokerStep agents2 store2 (.agentUndo S2)
        = (store2, [.invokeUndo entry.agentId S2])
    ∧ brokerStep agents2 store2 (.agentRedo S2)
        = (store2, [.invokeRedo entry.agentId S2])
    ∧ brokerStep agents2 store2 (.agentResume S2 prompt2)
        = (store2, [.invokeResume entry.agentId S2 prompt2]) := by
  refine ⟨?_, ?_, ?_, ?_, ?_, ?_⟩ <;>
    simp [brokerStep, hnone, hfound, hreg]

/-- Witness for C7: two registered providers; an unknown session falls
back to the first (`claude-code`), a known session owned by `other` is
routed to `other`. -/
theorem c7_unknown_session_fallback_witness :
    (storeGet [] "s7" = none
      ∧ storeGet [("s8", ⟨"other", ⟨[], "x", 0⟩⟩)] "s8" = some ⟨"other", ⟨[], "x", 0⟩⟩
      ∧ SessionEntry.agentId ⟨"other", ⟨[], "x", 0⟩⟩ ∈ ["claude-code", "other"])
    ∧ (brokerStep ["claude-code", "other"] [] (.agentUndo "s7")
        = ([], [.invokeUndo "claude-code" "s7"])
      ∧ brokerStep ["claude-code", "other"] [] (.agentRedo "s7")
        = ([], [.invokeRedo "claude-code" "s7"])
      ∧ brokerStep ["claude-code", "other"] [] (.agentResume "s7" "go on")
        = ([], [.invokeResume "claude-code" "s7" "go on"])
      ∧ brokerStep ["claude-code", "other"] [("s8", ⟨"other", ⟨[], "x", 0⟩⟩)]
          (.agentUndo "s8")
        = ([("s8", ⟨"other", ⟨[], "x", 0⟩⟩)],
           [.invokeUndo (SessionEntry.agentId ⟨"other", ⟨[], "x", 0⟩⟩) "s8"])
      ∧ brokerStep ["claude-code", "other"] [("s8", ⟨"other", ⟨[], "x", 0⟩⟩)]
          (.agentRedo "s8")
        = ([("s8", ⟨"other", ⟨[], "x", 0⟩⟩)],
           [.invokeRedo (SessionEntry.agentId ⟨"other", ⟨[], "x", 0⟩⟩) "s8"])
      ∧ brokerStep ["claude-code", "other"] [("s8", ⟨"other", ⟨[], "x", 0⟩⟩)]
          (.agentResume "s8" "more")
        = ([("s8", ⟨"other", ⟨[], "x", 0⟩⟩)],
           [.invokeResume (SessionEntry.agentId ⟨"other", ⟨[], "x", 0⟩⟩) "s8" "more"])) :=
  ⟨⟨by decide, by decide, by decide⟩,
   c7_unknown_session_fallback "claude-code" ["other"] ["claude-code", "other"]
     [] [("s8", ⟨"other", ⟨[], "x", 0⟩⟩)] "s7" "s8" "go on" "more"
     ⟨"other", ⟨[], "x", 0⟩⟩ (by decide) (by decide) (by decide)⟩

/-- C8. Malformed input is dropped silently: a frame whose body fails to
parse produces no outbound message, no provider invocation, and no
session-store change — the handler returns before the dispatch switch. -/
theorem c8_malformed_dropped (agents : List String) (store : SessionStore) :
    handleFrame agents store .malformed = (store, []) := rfl

/-- C2 counterexample. The claim "if `abort(S)` is invoked before the
`handleRequest` invocation resolves, the invocation calls neither
`onDone` nor `onError`" is false on the code: when `abort(S)` runs while
`handleRequest` is still suspended in `await this.loadSDK()` — i.e.
before `activeSessions.set(sessionId, controller)` — the abort finds no
registered controller and is a no-op, the controller created afterwards
is never aborted, and a successful query then fires `onDone`. -/
theorem c2_abort_silences_counterexample :
    abortBeforeResolve .beforeRegistration = true
    ∧ hasTerminalEvent
        (handleRequestEvents (.queryResolves "Done: increased padding")
          .beforeRegistration) = true
    ∧ handleRequestEvents (.queryResolves "Done: increased padding")
        .beforeRegistration
      = [.status "Connecting to Claude Code...", .status "Processing...",
         .done "Done: increased padding"] := by
  refine ⟨rfl, rfl, rfl⟩

/-- C2 amended. If `abort(S)` is invoked while the invocation is
suspended in `await sdk.query(…)` — i.e. after its `AbortController` has
been registered and before the invocation resolves — and the SDK honours
the invocation (the query resolves, or rejects with an `AbortError`;
it does not reject for an unrelated reason), then the invocation emits
no terminal callback: neither `onDone` nor `onError`. -/
theorem c2_abort_silences_during_query (behavior : SdkBehavior)
    (h : sdkHonorsAbort behavior = true) :
    hasTerminalEvent (handleRequestEvents behavior .duringQuery) = false := by
  cases behavior with
  | loadFails msg => cases h
  | queryResolves r => rfl
  | queryRejectsAbortError => rfl
  | queryRejects msg => cases h

/-- Witness for the amended C2: a query that resolves after the abort. -/
theorem c2_abort_silences_during_query_witness :
    sdkHonorsAbort (.queryResolves "ok") = true
    ∧ hasTerminalEvent (handleRequestEvents (.queryResolves "ok") .duringQuery)
        = false :=
  ⟨by decide, c2_abort_silences_during_query (.queryResolves "ok") (by decide)⟩

/-- C3 counterexample. The claim "`retry()` on an open socket with empty
history performs no send and reports an error via `onError`" is false on
the code: with an open socket and empty history, `retry()` performs a
send (`agent-retry`) and invokes no `onError`; the pending entry falls
back to prompt `"Retry"` with empty content. -/
theorem c3_retry_semantics_counterexample :
    hasSendAction
      (clientRetry ⟨some 1, "sess", [], none⟩ 5).2 = true
    ∧ hasErrorCallback
        (clientRetry ⟨some 1, "sess", [], none⟩ 5).2 = false
    ∧ (clientRetry ⟨some 1, "sess", [], none⟩ 5).2
      = [.setPending ⟨"Retry", [], 5, none, none⟩,
         .send (.agentRetry "sess")] := by
  refine ⟨rfl, rfl, rfl⟩

/-- C3 amended. `retry()` on an open socket always performs exactly the
two actions "assign the pending entry, then send `agent-retry`" and never
reports an `onError`. When the history is empty the pending entry uses
the fallback prompt `"Retry"` and empty content; when the history is
non-empty the pending entry's content is the last entry's content and
its prompt is the last entry's prompt, falling back to `"Retry"` only
when that prompt is the empty string. -/
theorem c3_retry_sources_last_entry (st : AgentClientState) (now : Nat)
    (hopen : socketIsOpen st = true) :
    (ClientAction.send (.agentRetry st.sessionId) ∈ (clientRetry st now).2
      ∧ hasErrorCallback (clientRetry st now).2 = false)
    ∧ (st.requestHistory = [] →
        (clientRetry st now).1.pendingEntry
          = some ⟨"Retry", [], now, none, none⟩)
    ∧ (∀ e, st.requestHistory.getLast? = some e →
        (clientRetry st now).1.pendingEntry
          = some ⟨if e.prompt = "" then "Retry" else e.prompt,
                  e.content, now, none, none⟩) := by
  refine ⟨⟨?_, ?_⟩, ?_, ?_⟩
  · simp [clientRetry, hopen]
  · simp [clientRetry, hopen, hasErrorCallback, isErrorCallbackAction]
  · intro hnil
    simp [clientRetry, hopen, hnil, jsOrDefault]
  · intro e he
    simp [clientRetry, hopen, he, jsOrDefault]

/-- Witness for the amended C3: a client whose history holds one entry
with prompt `make it bigger`; retry reuses it. -/
theorem c3_retry_sources_last_entry_witness :
    socketIsOpen ⟨some 1, "sess", [⟨"make it bigger", ["<button>"], 3, some "ok", none⟩], none⟩ = true
    ∧ ((ClientAction.send (.agentRetry "sess")
          ∈ (clientRetry
              ⟨some 1, "sess", [⟨"make it bigger", ["<button>"], 3, some "ok", none⟩], none⟩ 9).2
        ∧ hasErrorCallback
            (clientRetry
              ⟨some 1, "sess", [⟨"make it bigger", ["<button>"], 3, some "ok", none⟩], none⟩ 9).2
          = false)
      ∧ ([⟨"make it bigger", ["<button>"], 3, some "ok", none⟩]
            = ([] : List AgentHistoryEntry) →
          (clientRetry
              ⟨some 1, "sess", [⟨"make it bigger", ["<button>"], 3, some "ok", none⟩], none⟩ 9).1.pendingEntry
            = some ⟨"Retry", [], 9, none, none⟩)
      ∧ (∀ e,
          ([⟨"make it bigger", ["<button>"], 3, some "ok", none⟩]
              : List AgentHistoryEntry).getLast? = some e →
          (clientRetry
              ⟨some 1, "sess", [⟨"make it bigger", ["<button>"], 3, some "ok", none⟩], none⟩ 9).1.pendingEntry
            = some ⟨if e.prompt = "" then "Retry" else e.prompt,
                    e.content, 9, none, none⟩)) :=
  ⟨by decide,
   c3_retry_sources_last_entry
     ⟨some 1, "sess", [⟨"make it bigger", ["<button>"], 3, some "ok", none⟩], none⟩ 9
     (by decide)⟩

/-- C9. Client fail-fast when disconnected, and pending-before-send: on a
state whose socket is absent or not open, each of `sendRequest`, `undo`,
`redo`, `resume` and `retry` performs exactly one action — reporting
`onError "Not connected to relay server"` — and sends nothing, leaving
the state unchanged; on a state with an open socket, each of the five
verbs performs exactly "assign the pending entry, then send", in that
order. -/
theorem c9_fail_fast_and_pending_first (stClosed stOpen : AgentClientState)
    (agentId prompt : String) (ctx : AgentContext) (now : Nat)
    (hc : socketIsOpen stClosed = false) (ho : socketIsOpen stOpen = true) :
    (clientSendRequest stClosed agentId ctx now
        = (stClosed, [.callOnError "Not connected to relay server"])
      ∧ clientUndo stClosed now
        = (stClosed, [.callOnError "Not connected to relay server"])
      ∧ clientRedo stClosed now
        = (stClosed, [.callOnError "Not connected to relay server"])
      ∧ clientResume stClosed prompt now
        = (stClosed, [.callOnError "Not connected to relay server"])
      ∧ clientRetry stClosed now
        = (stClosed, [.callOnError "Not connected to relay server"]))
    ∧ ((∃ pe msg, (clientSendRequest stOpen agentId ctx now).2
          = [.setPending pe, .send msg])
      ∧ (∃ pe msg, (clientUndo stOpen now).2 = [.setPending pe, .send msg])
      ∧ (∃ pe msg, (clientRedo stOpen now).2 = [.setPending pe, .send msg])
      ∧ (∃ pe msg, (clientResume stOpen prompt now).2 = [.setPending pe, .send msg])
      ∧ (∃ pe msg, (clientRetry stOpen now).2 = [.setPending pe, .send msg])) := by
  refine ⟨⟨?_, ?_, ?_, ?_, ?_⟩, ?_, ?_, ?_, ?_, ?_⟩
  · simp [clientSendRequest, hc]
  · simp [clientUndo, hc]
  · simp [clientRedo, hc]
  · simp [clientResume, hc]
  · simp [clientRetry, hc]
  · exact ⟨⟨ctx.prompt, ctx.content, now, none, none⟩,
      .agentRequest agentId stOpen.sessionId ctx, by simp [clientSendRequest, ho]⟩
  · exact ⟨⟨"Undo the last change", [], now, none, none⟩,
      .agentUndo stOpen.sessionId, by simp [clientUndo, ho]⟩
  · exact ⟨⟨"Redo the last change", [], now, none, none⟩,
      .agentRedo stOpen.sessionId, by simp [clientRedo, ho]⟩
  · exact ⟨⟨prompt, [], now, none, none⟩,
      .agentResume stOpen.sessionId prompt, by simp [clientResume, ho]⟩
  · exact ⟨⟨jsOrDefault (stOpen.requestHistory.getLast?.map fun en => en.prompt) "Retry",
      (stOpen.requestHistory.getLast?.map fun en => en.content).getD [], now, none, none⟩,
      .agentRetry stOpen.sessionId, by simp [clientRetry, ho]⟩

/-- Witness for C9 at concrete states: a client with no socket and a
client with an open socket. -/
theorem c9_fail_fast_and_pending_first_witness :
    (socketIsOpen ⟨none, "sa", [], none⟩ = false
      ∧ socketIsOpen ⟨some 1, "sb", [], none⟩ = true)
    ∧ ((clientSendRequest ⟨none, "sa", [], none⟩ "claude-code" ⟨[], "p", 0⟩ 4
          = (⟨none, "sa", [], none⟩, [.callOnError "Not connected to relay server"])
        ∧ clientUndo ⟨none, "sa", [], none⟩ 4
          = (⟨none, "sa", [], none⟩, [.callOnError "Not connected to relay server"])
        ∧ clientRedo ⟨none, "sa", [], none⟩ 4
          = (⟨none, "sa", [], none⟩, [.callOnError "Not connected to relay server"])
        ∧ clientResume ⟨none, "sa", [], none⟩ "go" 4
          = (⟨none, "sa", [], none⟩, [.callOnError "Not connected to relay server"])
        ∧ clientRetry ⟨none, "sa", [], none⟩ 4
          = (⟨none, "sa", [], none⟩, [.callOnError "Not connected to relay server"]))
      ∧ ((∃ pe msg, (clientSendRequest ⟨some 1, "sb", [], none⟩ "claude-code" ⟨[], "p", 0⟩ 4).2
            = [.setPending pe, .send msg])
        ∧ (∃ pe msg, (clientUndo ⟨some 1, "sb", [], none⟩ 4).2 = [.setPending pe, .send msg])
        ∧ (∃ pe msg, (clientRedo ⟨some 1, "sb", [], none⟩ 4).2 = [.setPending pe, .send msg])
        ∧ (∃ pe msg, (clientResume ⟨some 1, "sb", [], none⟩ "go" 4).2
            = [.setPending pe, .send msg])
        ∧ (∃ pe msg, (clientRetry ⟨some 1, "sb", [], none⟩ 4).2
            = [.setPending pe, .send msg]))) :=
  ⟨⟨by decide, by decide⟩,
   c9_fail_fast_and_pending_first ⟨none, "sa", [], none⟩ ⟨some 1, "sb", [], none⟩
     "claude-code" "go" ⟨[], "p", 0⟩ 4 (by decide) (by decide)⟩

/-- C10. The client's inbound dispatch ignores `sessionId`: handling a
terminal or status message yields the same state and actions whatever its
session id; a terminal message with a pending entry finalizes it
(attaching the result or error), appends it to history, clears the
pending slot and invokes the corresponding callback; with no pending
entry it only invokes the callback; `agent-status` only invokes
`onStatus`. -/
theorem c10_client_ignores_session_id (st : AgentClientState)
    (sid sid2 r e m : String) (pe : AgentHistoryEntry)
    (hpe : st.pendingEntry = some pe) :
    (handleServerMessage st (.agentDone sid r)
        = handleServerMessage st (.agentDone sid2 r)
      ∧ handleServerMessage st (.agentError sid e)
        = handleServerMessage st (.agentError sid2 e)
      ∧ handleServerMessage st (.agentStatus sid m)
        = handleServerMessage st (.agentStatus sid2 m))
    ∧ handleServerMessage st (.agentDone sid r)
        = ({ st with
              requestHistory := st.requestHistory ++ [{ pe with result := some r }],
              pendingEntry := none },
           [.callOnDone r])
    ∧ handleServerMessage st (.agentError sid e)
        = ({ st with
              requestHistory := st.requestHistory ++ [{ pe with error := some e }],
              pendingEntry := none },
           [.callOnError e])
    ∧ handleServerMessage { st with pendingEntry := none } (.agentDone sid r)
        = ({ st with pendingEntry := none }, [.callOnDone r])
    ∧ handleServerMessage { st with pendingEntry := none } (.agentError sid e)
        = ({ st with pendingEntry := none }, [.callOnError e])
    ∧ handleServerMessage st (.agentStatus sid m) = (st, [.callOnStatus m]) := by
  refine ⟨⟨?_, ?_, ?_⟩, ?_, ?_, ?_, ?_, ?_⟩ <;>
    simp [handleServerMessage, hpe]

/-- Witness for C10 at a concrete client state holding a pending entry. -/
theorem c10_client_ignores_session_id_witness :
    AgentClientState.pendingEntry
        ⟨some 1, "sb", [], some ⟨"make it bigger", ["<button>"], 3, none, none⟩⟩
      = some ⟨"make it bigger", ["<button>"], 3, none, none⟩
    ∧ ((handleServerMessage
          ⟨some 1, "sb", [], some ⟨"make it bigger", ["<button>"], 3, none, none⟩⟩
          (.agentDone "sX" "res")
        = handleServerMessage
          ⟨some 1, "sb", [], some ⟨"make it bigger", ["<button>"], 3, none, none⟩⟩
          (.agentDone "sY" "res")
      ∧ handleServerMessage
          ⟨some 1, "sb", [], some ⟨"make it bigger", ["<button>"], 3, none, none⟩⟩
          (.agentError "sX" "bad")
        = handleServerMessage
          ⟨some 1, "sb", [], some ⟨"make it bigger", ["<button>"], 3, none, none⟩⟩
          (.agentError "sY" "bad")
      ∧ handleServerMessage
          ⟨some 1, "sb", [], some ⟨"make it bigger", ["<button>"], 3, none, none⟩⟩
          (.agentStatus "sX" "Processing...")
        = handleServerMessage
          ⟨some 1, "sb", [], some ⟨"make it bigger", ["<button>"], 3, none, none⟩⟩
          (.agentStatus "sY" "Processing..."))
    ∧ handleServerMessage
        ⟨some 1, "sb", [], some ⟨"make it bigger", ["<button>"], 3, none, none⟩⟩
        (.agentDone "sX" "res")
      = ({ (⟨some 1, "sb", [], some ⟨"make it bigger", ["<button>"], 3, none, none⟩⟩
            : AgentClientState) with
            requestHistory := [] ++ [{ (⟨"make it bigger", ["<button>"], 3, none, none⟩
              : AgentHistoryEntry) with result := some "res" }],
            pendingEntry := none },
         [.callOnDone "res"])
    ∧ handleServerMessage
        ⟨some 1, "sb", [], some ⟨"make it bigger", ["<button>"], 3, none, none⟩⟩
        (.agentError "sX" "bad")
      = ({ (⟨some 1, "sb", [], some ⟨"make it bigger", ["<button>"], 3, none, none⟩⟩
            : AgentClientState) with
            requestHistory := [] ++ [{ (⟨"make it bigger", ["<button>"], 3, none, none⟩
              : AgentHistoryEntry) with error := some "bad" }],
            pendingEntry := none },
         [.callOnError "bad"])
    ∧ handleServerMessage
        { (⟨some 1, "sb", [], some ⟨"make it bigger", ["<button>"], 3, none, none⟩⟩
            : AgentClientState) with pendingEntry := none }
        (.agentDone "sX" "res")
      = ({ (⟨some 1, "sb", [], some ⟨"make it bigger", ["<button>"], 3, none, none⟩⟩
            : AgentClientState) with pendingEntry := none },
         [.callOnDone "res"])
    ∧ handleServerMessage
        { (⟨some 1, "sb", [], some ⟨"make it bigger", ["<button>"], 3, none, none⟩⟩
            : AgentClientState) with pendingEntry := none }
        (.agentError "sX" "bad")
      = ({ (⟨some 1, "sb", [], some ⟨"make it bigger", ["<button>"], 3, none, none⟩⟩
            : AgentClientState) with pendingEntry := none },
         [.callOnError "bad"])
    ∧ handleServerMessage
        ⟨some 1, "sb", [], some ⟨"make it bigger", ["<button>"], 3, none, none⟩⟩
        (.agentStatus "sX" "Processing...")
      = (⟨some 1, "sb", [], some ⟨"make it bigger", ["<button>"], 3, none, none⟩⟩,
         [.callOnStatus "Processing..."])) :=
  ⟨rfl,
   c10_client_ignores_session_id
     ⟨some 1, "sb", [], some ⟨"make it bigger", ["<button>"], 3, none, none⟩⟩
     "sX" "sY" "res" "bad" "Processing..."
     ⟨"make it bigger", ["<button>"], 3, none, none⟩ rfl⟩
